import Mathlib

/-!
Verification of the incremental-refresh core of the Are-You-Not-Entertained
movie-data pipeline.

Time instants are modelled as rational numbers of days (the Python code
compares `datetime` values exactly, and takes whole-day differences with
`timedelta.days`, i.e. a floor).  Optional timestamps are `Option ℚ`.

The definitions below are shallow embeddings of:
  * `src/data_collection/refresh_strategy.py` (age classifier, per-source
    refresh predicates, freeze decision, per-movie refresh plan),
  * `src/database/duckdb_client.py` (`upsert_dataframe`),
  * `src/ayne/data_collection/rate_limiter.py` (`AsyncRateLimiter`,
    `retry_with_backoff`),
  * `src/ayne/data_collection/omdb/client.py` / omdb normalizers
    (`get_movie_by_imdb_id`, `normalize_movie_response`),
  * `src/ayne/data_collection/orchestrator.py` (`refresh_movie_data`,
    the `last_full_refresh` update).
-/

namespace AYNE

namespace RefreshStrategy

/-- Movie age categories (enum `MovieAge` of `refresh_strategy.py`). -/
inductive MovieAge
  | recent
  | established
  | mature
  | archived
deriving DecidableEq, Repr

/-- Constant `RefreshThresholds.AGE_RECENT`. -/
def AGE_RECENT : ℤ := 60
/-- Constant `RefreshThresholds.AGE_ESTABLISHED`. -/
def AGE_ESTABLISHED : ℤ := 180
/-- Constant `RefreshThresholds.AGE_MATURE`. -/
def AGE_MATURE : ℤ := 365
/-- Constant `RefreshThresholds.FREEZE_MIN_AGE_DAYS`. -/
def FREEZE_MIN_AGE_DAYS : ℤ := 365
/-- Constant `RefreshThresholds.FREEZE_STABLE_CYCLES`. -/
def FREEZE_STABLE_CYCLES : ℤ := 3

/-- Quantity `(datetime.now(utc) - release_date).days`: the whole-day difference,
a floor of the exact difference in days. -/
def daysSince (now release : ℚ) : ℤ := ⌊now - release⌋

/-- The branch structure of `get_movie_age`, as a function of the whole-day
age `days_since_release`. -/
def classifyAge (d : ℤ) : MovieAge :=
  if d ≤ AGE_RECENT then MovieAge.recent
  else if d ≤ AGE_ESTABLISHED then MovieAge.established
  else if d ≤ AGE_MATURE then MovieAge.mature
  else MovieAge.archived

/-- Function `get_movie_age(release_date)`, parametrised by the current instant. -/
def get_movie_age (now release : ℚ) : MovieAge :=
  classifyAge (daysSince now release)

/-- Function `get_tmdb_refresh_interval(release_date)` (days). -/
def get_tmdb_refresh_interval (now release : ℚ) : ℤ :=
  match get_movie_age now release with
  | MovieAge.recent => 5
  | MovieAge.established => 15
  | MovieAge.mature => 30
  | MovieAge.archived => 90

/-- Function `get_omdb_refresh_interval(release_date)` (days). -/
def get_omdb_refresh_interval (now release : ℚ) : ℤ :=
  match get_movie_age now release with
  | MovieAge.recent => 5
  | MovieAge.established => 30
  | MovieAge.mature => 90
  | MovieAge.archived => 180

/-- Function `get_numbers_refresh_interval(release_date)` (days). -/
def get_numbers_refresh_interval (now release : ℚ) : ℤ :=
  match get_movie_age now release with
  | MovieAge.recent => 5
  | MovieAge.established => 30
  | MovieAge.mature => 90
  | MovieAge.archived => 180

/-- Predicate `needs_tmdb_refresh(release_date, last_tmdb_update)`: `True` when the
timestamp is `None`; otherwise the code compares
`last_tmdb_update < now - timedelta(days=interval)` exactly. -/
def needs_tmdb_refresh (now release : ℚ) (last : Option ℚ) : Bool :=
  match last with
  | none => true
  | some l => decide (l < now - (get_tmdb_refresh_interval now release : ℚ))

/-- Predicate `needs_omdb_refresh(release_date, last_omdb_update)`. -/
def needs_omdb_refresh (now release : ℚ) (last : Option ℚ) : Bool :=
  match last with
  | none => true
  | some l => decide (l < now - (get_omdb_refresh_interval now release : ℚ))

/-- Predicate `needs_numbers_refresh(release_date, last_numbers_update)`. -/
def needs_numbers_refresh (now release : ℚ) (last : Option ℚ) : Bool :=
  match last with
  | none => true
  | some l => decide (l < now - (get_numbers_refresh_interval now release : ℚ))

/-- Decision `should_freeze_movie(release_date, last_tmdb_update, last_omdb_update,
consecutive_unchanged_cycles)`: three sequential guards, then `False`. -/
def should_freeze_movie (now release : ℚ) (lastTmdb lastOmdb : Option ℚ)
    (cycles : ℤ) : Bool :=
  if daysSince now release < FREEZE_MIN_AGE_DAYS then false
  else if lastTmdb.isNone && lastOmdb.isNone then false
  else if FREEZE_STABLE_CYCLES ≤ cycles then true
  else false

/-- The `release_date` field of a movie record as seen by
`calculate_refresh_plan`: `movie.get("release_date")` yields `None` when the
key is missing, and the code tests Python truthiness (`if not release_date`),
which treats `None` and the empty string as falsy. -/
inductive DateField
  | missing
  | null
  | emptyStr
  | value (d : ℚ)
deriving DecidableEq

/-- The movie record fields read by `calculate_refresh_plan`.  The
`last_*_update` fields are already normalised to `Option ℚ` (the code maps
`NaT`/`NaN`/`None` to `None` and parses ISO strings). -/
structure MovieRecord where
  release_date : DateField
  last_tmdb_update : Option ℚ
  last_omdb_update : Option ℚ
  last_numbers_update : Option ℚ
deriving DecidableEq

/-- The dict returned by `calculate_refresh_plan`. -/
structure RefreshPlan where
  needs_tmdb : Bool
  needs_omdb : Bool
  needs_numbers : Bool
deriving DecidableEq, Repr

/-- Function `calculate_refresh_plan(movie)`: an untruthy `release_date` (missing key,
`None`, or empty string) short-circuits to all-`False`; otherwise the three
per-source predicates are applied. -/
def calculate_refresh_plan (now : ℚ) (m : MovieRecord) : RefreshPlan :=
  match m.release_date with
  | DateField.value d =>
      { needs_tmdb := needs_tmdb_refresh now d m.last_tmdb_update
        needs_omdb := needs_omdb_refresh now d m.last_omdb_update
        needs_numbers := needs_numbers_refresh now d m.last_numbers_update }
  | _ => { needs_tmdb := false, needs_omdb := false, needs_numbers := false }

end RefreshStrategy

namespace DuckDB

/-- A table cell value. -/
abbrev Val := ℤ

/-- A row: bindings of column names to (non-null) values.  A column with no
binding is SQL NULL — columns absent from the incoming DataFrame are not
named in the INSERT column list and are therefore inserted as NULL. -/
abbrev Row := List (String × Val)

/-- Value of column `c` in row `r` (`none` = NULL / absent). -/
def getCol (r : Row) (c : String) : Option Val :=
  (r.find? (fun p => p.1 == c)).map (fun p => p.2)

/-- The correlated EXISTS predicate of the DELETE statement: for every key
column, `main.col = staging.col` — SQL equality, not satisfied when either
side is NULL. -/
def keysMatch (keys : List String) (main staging : Row) : Bool :=
  keys.all (fun k =>
    match getCol main k, getCol staging k with
    | some a, some b => a == b
    | _, _ => false)

/-- Effect of the DELETE statement issued by `upsert_dataframe`: remove every
target row for which some staging row matches on all key columns. -/
def deleteMatching (keys : List String) (rows : List Row) (table : List Row) :
    List Row :=
  table.filter (fun r => !(rows.any (fun s => keysMatch keys r s)))

/-- Effect of the INSERT statement: all staging rows appended (only the
DataFrame's columns are named, so unnamed target columns are NULL). -/
def insertRows (rows : List Row) (table : List Row) : List Row :=
  table ++ rows

/-- Method `DuckDBClient.upsert_dataframe(table_name, df, key_columns)`: an empty
DataFrame is a no-op; otherwise the DELETE of key-matching rows runs, then
the INSERT of all incoming rows. -/
def upsert_dataframe (table : List Row) (rows : List Row) (keys : List String) :
    List Row :=
  if rows.isEmpty then table
  else insertRows rows (deleteMatching keys rows table)

/-- The spec-side upsert, written from the spec's words: delete any existing
row whose key matches any incoming row's key, then insert all incoming
rows. -/
def upsertSpecModel (table : List Row) (rows : List Row) (keys : List String) :
    List Row :=
  (table.filter (fun r => !(rows.any (fun s => keysMatch keys r s)))) ++ rows

/-- The statements `upsert_dataframe` issues, in order.  Each goes through
its own `self.execute(...)` call; DuckDB auto-commits each statement, and the
method wraps no BEGIN/COMMIT around the pair. -/
def upsertStatements (rows : List Row) (keys : List String) :
    List (List Row → List Row) :=
  [deleteMatching keys rows, insertRows rows]

/-- Durable table state once the first `n` statements have committed; a
failure inside statement `n` (0-based) leaves exactly this state. -/
def commitFirst (stmts : List (List Row → List Row)) (n : ℕ)
    (table : List Row) : List Row :=
  (stmts.take n).foldl (fun t f => f t) table

end DuckDB

/-- Python exception classes relevant to the retry and fetch paths:
`httpx.HTTPStatusError` (carrying `response.status_code`),
`httpx.RequestError` (transient network failure), a pydantic
`ValidationError`, and any other exception outside the retry helper's caught
tuple (e.g. a malformed JSON body). -/
inductive PyExc
  | httpStatusError (status : ℕ)
  | requestError
  | validationError
  | otherError
deriving DecidableEq, Repr

namespace RateLimiter

/-- Whether `retry_with_backoff`'s `except exceptions` clause catches the
exception: the default tuple is `(httpx.HTTPStatusError, httpx.RequestError)`. -/
def caught : PyExc → Bool
  | PyExc.httpStatusError _ => true
  | PyExc.requestError => true
  | PyExc.validationError => false
  | PyExc.otherError => false

/-- The rate-limit test: `isinstance(e, HTTPStatusError) and
e.response.status_code == 429`. -/
def is429 : PyExc → Bool
  | PyExc.httpStatusError s => s == 429
  | _ => false

/-- Sleep `min(base_delay * (2**attempt), max_delay)`. -/
def backoff (base maxDelay : ℚ) (attempt : ℕ) : ℚ :=
  min (base * 2 ^ attempt) maxDelay

/-- Observable outcome of `retry_with_backoff`: the returned value or raised
exception, the number of times the operation was invoked, and the backoff
sleeps performed, in order.  `Except.ok none` is the `return None` reached
when the loop body never runs (`retry_count = 0`). -/
structure RetryResult (α : Type) where
  result : Except PyExc (Option α)
  calls : ℕ
  sleeps : List ℚ
deriving Repr

/-- The loop of `retry_with_backoff`, starting at attempt index `attempt`
with `remaining` iterations of `range(retry_count)` left.  `op i` is the
outcome of invocation number `i`. -/
def retryGo {α : Type} (op : ℕ → Except PyExc α) (base maxDelay : ℚ) :
    ℕ → ℕ → RetryResult α
  | _, 0 => ⟨Except.ok none, 0, []⟩
  | attempt, remaining + 1 =>
    match op attempt with
    | Except.ok a => ⟨Except.ok (some a), 1, []⟩
    | Except.error e =>
      if caught e = false then
        ⟨Except.error e, 1, []⟩
      else if is429 e then
        if remaining = 0 then
          ⟨Except.error e, 1, [backoff base maxDelay attempt]⟩
        else
          let rest := retryGo op base maxDelay (attempt + 1) remaining
          ⟨rest.result, rest.calls + 1, backoff base maxDelay attempt :: rest.sleeps⟩
      else if remaining = 0 then
        ⟨Except.error e, 1, []⟩
      else
        let rest := retryGo op base maxDelay (attempt + 1) remaining
        ⟨rest.result, rest.calls + 1, backoff base maxDelay attempt :: rest.sleeps⟩

/-- Function `retry_with_backoff(func, retry_count, base_delay, max_delay)`. -/
def retry_with_backoff {α : Type} (op : ℕ → Except PyExc α)
    (retryCount : ℕ) (base maxDelay : ℚ) : RetryResult α :=
  retryGo op base maxDelay 0 retryCount

/-- Value `min_delay = 1.0 / requests_per_second`. -/
def minDelay (requests_per_second : ℚ) : ℚ := 1 / requests_per_second

/-- One pass through `_enforce_rate_limit` under the lock: given the stored
`_last_request_time` and the instant `now` at which the holder reads the
clock, the instant recorded as the request start (the code sleeps
`min_delay - (now - last)` when that is positive, then stamps the clock). -/
def admitTime (delta last now : ℚ) : ℚ :=
  if now - last < delta then last + delta else now

/-- Successive request-start instants: the `asyncio.Lock` serialises the
passes, each seeded with the previously recorded start. -/
def admitTimes (delta : ℚ) : ℚ → List ℚ → List ℚ
  | _, [] => []
  | last, now :: rest =>
      let t := admitTime delta last now
      t :: admitTimes delta t rest

/-- Semaphore events: an `__aenter__` acquiring a slot, an `__aexit__`
releasing one. -/
inductive SemEvent
  | acq
  | rel
deriving DecidableEq, Repr

/-- Shared state of one limiter instance: free slots of the
`asyncio.Semaphore` and the number of tasks currently holding a slot. -/
structure SemState where
  counter : ℕ
  holders : ℕ
deriving DecidableEq, Repr

/-- One semaphore transition: `acquire` suspends while the counter is zero,
so the event can only fire with a free slot; `release` is performed by a
current holder on exit. -/
def semStep (s : SemState) : SemEvent → Option SemState
  | SemEvent.acq =>
      if s.counter = 0 then none else some ⟨s.counter - 1, s.holders + 1⟩
  | SemEvent.rel =>
      if s.holders = 0 then none else some ⟨s.counter + 1, s.holders - 1⟩

/-- Run a trace of semaphore events, recording each intermediate state;
`none` when an event fires that the semaphore semantics forbid. -/
def runSem (s : SemState) : List SemEvent → Option (List SemState)
  | [] => some []
  | e :: es =>
      match semStep s e with
      | none => none
      | some s' => (runSem s' es).map (fun l => s' :: l)

end RateLimiter

namespace OMDB

/-- One entry of the OMDB `Ratings` array. -/
structure OMDBRating where
  source : String
  value : String
deriving DecidableEq, Repr

/-- The fields of the pydantic `OMDBMovieResponse` on the paths verified
here (the remaining fields are copied through unchanged by the
normalizer). -/
structure OMDBMovieResponse where
  Response : String
  imdbID : String
  Title : String
  Year : String
  Ratings : List OMDBRating
deriving DecidableEq, Repr

/-- Rotten Tomatoes branch of `extract_ratings`: take values ending in `%`,
strip the trailing percent signs (`rstrip("%")`), parse as an integer; a
parse failure is swallowed. -/
def parseRottenTomatoes (v : String) : Option ℤ :=
  if v.endsWith "%" then
    (String.mk (v.toList.reverse.dropWhile (fun c => c = '%')).reverse).toInt?
  else none

/-- Metacritic branch of `extract_ratings`: values containing `/` have the
part before the first slash (`split("/")[0]`) parsed as an integer; a parse
failure is swallowed. -/
def parseMetacritic (v : String) : Option ℤ :=
  if v.contains '/' then (v.takeWhile (fun c => c ≠ '/')).toInt?
  else none

/-- Function `extract_ratings(movie)`: a single pass over the `Ratings` list; later
matches overwrite earlier ones, failed parses keep the pair unchanged; an
empty list yields `(None, None)`. -/
def extract_ratings (rs : List OMDBRating) : Option ℤ × Option ℤ :=
  rs.foldl
    (fun acc r =>
      if r.source = "Rotten Tomatoes" then
        match parseRottenTomatoes r.value with
        | some n => (some n, acc.2)
        | none => acc
      else if r.source = "Metacritic" then
        match parseMetacritic r.value with
        | some n => (acc.1, some n)
        | none => acc
      else acc)
    (none, none)

/-- The `movie.Year.isdigit()` guard followed by `int(movie.Year)`. -/
def parseYear (s : String) : Option ℕ :=
  if s.length ≠ 0 && s.toList.all Char.isDigit then s.toNat? else none

/-- The normalized record (the fields the verified claims touch; the further
pass-through fields do not affect any claim). -/
structure NormalizedMovie where
  imdb_id : String
  title : String
  year : Option ℕ
  rotten_tomatoes_rating : Option ℤ
  meta_critic_rating : Option ℤ
  last_updated_utc : ℚ
deriving DecidableEq, Repr

/-- Raw JSON body as consumed by `OMDBMovieResponse(**data)`: either pydantic
validation fails (raising a `ValidationError`), or parsing yields a
response. -/
inductive RawData
  | invalid
  | valid (resp : OMDBMovieResponse)
deriving DecidableEq, Repr

/-- Function `normalize_movie_response(data)`: pydantic validation may raise; a
provider-reported failure (`Response == "False"`) yields `None`; otherwise a
normalized record is built. -/
def normalize_movie_response (now : ℚ) (d : RawData) :
    Except PyExc (Option NormalizedMovie) :=
  match d with
  | RawData.invalid => Except.error PyExc.validationError
  | RawData.valid m =>
      if m.Response = "False" then Except.ok none
      else
        let rt := extract_ratings m.Ratings
        Except.ok (some
          { imdb_id := m.imdbID
            title := m.Title
            year := parseYear m.Year
            rotten_tomatoes_rating := rt.1
            meta_critic_rating := rt.2
            last_updated_utc := now })

/-- Method `OMDBClient.get_movie_by_imdb_id(imdb_id)`: a falsy id short-circuits to
`None`; otherwise the `_request` outcome (`Except.error` models any raised
exception: network failure, non-2xx raised by `raise_for_status`, retry
exhaustion) feeds the normalizer, and the surrounding `except Exception`
turns every raised exception into `None`. -/
def get_movie_by_imdb_id (now : ℚ) (imdbId : String)
    (requestOutcome : Except PyExc RawData) : Option NormalizedMovie :=
  if imdbId = "" then none
  else
    match requestOutcome with
    | Except.error _ => none
    | Except.ok d =>
        match normalize_movie_response now d with
        | Except.error _ => none
        | Except.ok r => r

end OMDB

namespace Orchestrator

/-- The columns of the `movies` table read and written by the timestamp and
`last_full_refresh` updates of `refresh_movie_data`. -/
structure MovieRow where
  movie_id : ℕ
  last_tmdb_update : Option ℚ
  last_omdb_update : Option ℚ
  last_full_refresh : Option ℚ
deriving DecidableEq, Repr

/-- The per-id loop `UPDATE movies SET last_tmdb_update = ? WHERE ...` run
for every successfully fetched TMDB record. -/
def stampTmdb (now : ℚ) (ids : List ℕ) (t : List MovieRow) : List MovieRow :=
  t.map (fun r =>
    if r.movie_id ∈ ids then { r with last_tmdb_update := some now } else r)

/-- The per-id loop `UPDATE movies SET last_omdb_update = ? WHERE ...` run
for every successfully fetched OMDB record. -/
def stampOmdb (now : ℚ) (ids : List ℕ) (t : List MovieRow) : List MovieRow :=
  t.map (fun r =>
    if r.movie_id ∈ ids then { r with last_omdb_update := some now } else r)

/-- The `last_full_refresh` block of `refresh_movie_data`: guarded by the
cycle counters `tmdb_updated > 0 and omdb_updated > 0`, it runs a single
table-wide UPDATE whose WHERE clause tests only that both per-source
timestamps are non-NULL and `last_full_refresh` is NULL. -/
def applyFullRefreshUpdate (now : ℚ) (tmdbUpdated omdbUpdated : ℕ)
    (t : List MovieRow) : List MovieRow :=
  if 0 < tmdbUpdated ∧ 0 < omdbUpdated then
    t.map (fun r =>
      if r.last_tmdb_update ≠ none ∧ r.last_omdb_update ≠ none ∧
          r.last_full_refresh = none
      then { r with last_full_refresh := some now }
      else r)
  else t

/-- The timestamp-mutating tail of one `refresh_movie_data` cycle: stamp the
TMDB-updated rows, stamp the OMDB-updated rows, then the `last_full_refresh`
update with the cycle counters. -/
def refreshCycleEnd (now : ℚ) (tmdbIds omdbIds : List ℕ) (t : List MovieRow) :
    List MovieRow :=
  applyFullRefreshUpdate now tmdbIds.length omdbIds.length
    (stampOmdb now omdbIds (stampTmdb now tmdbIds t))

/-- Per-row outcome of `refreshCycleEnd`, stated directly: the per-source
stamps apply to the ids fetched this cycle, and `last_full_refresh` becomes
`now` exactly when some TMDB fetch and some OMDB fetch succeeded this cycle
(for any rows), this row's post-stamp per-source timestamps are both non-null
and its `last_full_refresh` was null — regardless of whether this row itself
was updated this cycle. -/
def cycleRowOutcome (now : ℚ) (tmdbIds omdbIds : List ℕ) (r : MovieRow) :
    MovieRow :=
  let tm := if r.movie_id ∈ tmdbIds then some now else r.last_tmdb_update
  let om := if r.movie_id ∈ omdbIds then some now else r.last_omdb_update
  let full :=
    if tmdbIds ≠ [] ∧ omdbIds ≠ [] ∧ tm ≠ none ∧ om ≠ none ∧
        r.last_full_refresh = none
    then some now else r.last_full_refresh
  ⟨r.movie_id, tm, om, full⟩

end Orchestrator

/-!
## Theorems

One theorem per claim, with helper lemmas shared between them.
-/

namespace RefreshStrategy

/-- C6: the age classifier maps the whole-day age (now UTC minus the
reference date) to exactly one category, with each boundary included in the
lower (more recent) category: age ≤ 60 is RECENT, 60 < age ≤ 180 is
ESTABLISHED, 180 < age ≤ 365 is MATURE, age > 365 is ARCHIVED; at exactly
60/180/365 days the lower category is assigned, at boundary+1 the next. -/
theorem C6_classifier_boundaries :
    (∀ now release : ℚ,
        get_movie_age now release = classifyAge (daysSince now release))
    ∧ (∀ d : ℤ,
        (classifyAge d = MovieAge.recent ↔ d ≤ 60)
        ∧ (classifyAge d = MovieAge.established ↔ 60 < d ∧ d ≤ 180)
        ∧ (classifyAge d = MovieAge.mature ↔ 180 < d ∧ d ≤ 365)
        ∧ (classifyAge d = MovieAge.archived ↔ 365 < d))
    ∧ classifyAge 60 = MovieAge.recent
    ∧ classifyAge 61 = MovieAge.established
    ∧ classifyAge 180 = MovieAge.established
    ∧ classifyAge 181 = MovieAge.mature
    ∧ classifyAge 365 = MovieAge.mature
    ∧ classifyAge 366 = MovieAge.archived := by
  refine ⟨fun _ _ => rfl, ?_, by decide, by decide, by decide, by decide,
    by decide, by decide⟩
  intro d
  unfold classifyAge AGE_RECENT AGE_ESTABLISHED AGE_MATURE
  split_ifs with h1 h2 h3 <;> simp <;> omega

/-- C5: `should_freeze_movie` returns true iff the whole-day age is at least
365, at least one of the two last-update timestamps is non-null, and
`consecutive_unchanged_cycles` is at least 3; so it is false below age 365
regardless of the other inputs, and false with both timestamps null
regardless of age. -/
theorem C5_freeze_gating (now release : ℚ) (la lo : Option ℚ) (c : ℤ) :
    should_freeze_movie now release la lo c = true ↔
      365 ≤ daysSince now release ∧ (la ≠ none ∨ lo ≠ none) ∧ 3 ≤ c := by
  unfold should_freeze_movie FREEZE_MIN_AGE_DAYS FREEZE_STABLE_CYCLES
  split_ifs with h1 h2 h3
  · simp only [Bool.false_eq_true, false_iff]
    rintro ⟨ha, -, -⟩; omega
  · simp only [Bool.false_eq_true, false_iff]
    rw [Bool.and_eq_true, Option.isNone_iff_eq_none, Option.isNone_iff_eq_none]
      at h2
    rintro ⟨-, hne, -⟩
    rcases hne with h | h
    · exact h h2.1
    · exact h h2.2
  · simp only [true_iff]
    refine ⟨by omega, ?_, h3⟩
    rw [Bool.and_eq_true, Option.isNone_iff_eq_none, Option.isNone_iff_eq_none]
      at h2
    by_cases hla : la = none
    · exact Or.inr (fun hlo => h2 ⟨hla, hlo⟩)
    · exact Or.inl hla
  · simp only [Bool.false_eq_true, false_iff]
    rintro ⟨-, -, hc⟩; omega

/-- C10: a movie record whose `release_date` is missing, `None`, or the
empty string gets the all-false refresh plan from `calculate_refresh_plan`,
whatever its last-update timestamps (in particular all null). -/
theorem C10_untruthy_release_date (now : ℚ) (m : MovieRecord)
    (h : m.release_date = DateField.missing ∨ m.release_date = DateField.null
        ∨ m.release_date = DateField.emptyStr) :
    calculate_refresh_plan now m =
      { needs_tmdb := false, needs_omdb := false, needs_numbers := false } := by
  unfold calculate_refresh_plan
  rcases h with h | h | h <;> rw [h]

/-- Witness for C10 at a concrete record: `release_date = None` and all
last-update timestamps null. -/
theorem C10_untruthy_release_date_witness :
    calculate_refresh_plan 0 ⟨DateField.null, none, none, none⟩ =
      { needs_tmdb := false, needs_omdb := false, needs_numbers := false } :=
  C10_untruthy_release_date 0 ⟨DateField.null, none, none, none⟩
    (Or.inr (Or.inl rfl))

/-- The TMDB refresh interval is positive for every age category. -/
theorem tmdb_interval_pos (now release : ℚ) :
    0 < get_tmdb_refresh_interval now release := by
  unfold get_tmdb_refresh_interval
  cases get_movie_age now release <;> norm_num

/-- The OMDB refresh interval is positive for every age category. -/
theorem omdb_interval_pos (now release : ℚ) :
    0 < get_omdb_refresh_interval now release := by
  unfold get_omdb_refresh_interval
  cases get_movie_age now release <;> norm_num

/-- The box-office refresh interval is positive for every age category. -/
theorem numbers_interval_pos (now release : ℚ) :
    0 < get_numbers_refresh_interval now release := by
  unfold get_numbers_refresh_interval
  cases get_movie_age now release <;> norm_num

/-- C1 counterexample: with `now = 100`, `release = 0` (whole-day age 100,
ESTABLISHED, TMDB interval 15 days) and `last_update = 85`, exactly the
interval has elapsed (`now - last = 15 = interval`), yet
`needs_tmdb_refresh` returns false — the claimed `elapsed ≥ interval ⟹ true`
fails at equality, because the code tests
`last_update < now - timedelta(days=interval)` strictly. -/
theorem C1_counterexample :
    needs_tmdb_refresh 100 0 (some 85) = false
    ∧ get_tmdb_refresh_interval 100 0 = 15
    ∧ (100 : ℚ) - 85 = ((15 : ℤ) : ℚ) := by
  have hd : daysSince 100 0 = 100 := by
    unfold daysSince
    norm_num
  have hi : get_tmdb_refresh_interval 100 0 = 15 := by
    unfold get_tmdb_refresh_interval get_movie_age
    rw [hd]
    decide
  refine ⟨?_, hi, by norm_num⟩
  unfold needs_tmdb_refresh
  rw [hi]
  simp only [decide_eq_false_iff_not, not_lt]
  push_cast
  norm_num

/-- C1 amended: each per-source refresh predicate returns true when the
last-update timestamp is absent, and otherwise returns true iff STRICTLY
more than `interval(classify(reference_date))` days have elapsed
(`now - last > interval`); in particular it is false when exactly the
interval has elapsed, and false when the last update is `now`. -/
theorem C1_refresh_predicates (now release : ℚ) (last : Option ℚ) :
    (needs_tmdb_refresh now release last = true ↔
      last = none ∨ ∃ l, last = some l ∧
        ((get_tmdb_refresh_interval now release : ℤ) : ℚ) < now - l)
    ∧ (needs_omdb_refresh now release last = true ↔
      last = none ∨ ∃ l, last = some l ∧
        ((get_omdb_refresh_interval now release : ℤ) : ℚ) < now - l)
    ∧ (needs_numbers_refresh now release last = true ↔
      last = none ∨ ∃ l, last = some l ∧
        ((get_numbers_refresh_interval now release : ℤ) : ℚ) < now - l)
    ∧ needs_tmdb_refresh now release none = true
    ∧ needs_omdb_refresh now release none = true
    ∧ needs_numbers_refresh now release none = true
    ∧ needs_tmdb_refresh now release (some now) = false
    ∧ needs_omdb_refresh now release (some now) = false
    ∧ needs_numbers_refresh now release (some now) = false := by
  have htp := tmdb_interval_pos now release
  have hop := omdb_interval_pos now release
  have hnp := numbers_interval_pos now release
  have htp' : (0 : ℚ) < ((get_tmdb_refresh_interval now release : ℤ) : ℚ) := by
    exact_mod_cast htp
  have hop' : (0 : ℚ) < ((get_omdb_refresh_interval now release : ℤ) : ℚ) := by
    exact_mod_cast hop
  have hnp' : (0 : ℚ) < ((get_numbers_refresh_interval now release : ℤ) : ℚ) := by
    exact_mod_cast hnp
  refine ⟨?_, ?_, ?_, rfl, rfl, rfl, ?_, ?_, ?_⟩
  · cases last with
    | none => simp [needs_tmdb_refresh]
    | some l =>
        simp only [needs_tmdb_refresh, decide_eq_true_eq, Option.some.injEq]
        constructor
        · intro h; exact Or.inr ⟨l, rfl, by linarith⟩
        · rintro (h | ⟨l', hl', h⟩)
          · exact absurd h (by simp)
          · cases hl'; linarith
  · cases last with
    | none => simp [needs_omdb_refresh]
    | some l =>
        simp only [needs_omdb_refresh, decide_eq_true_eq, Option.some.injEq]
        constructor
        · intro h; exact Or.inr ⟨l, rfl, by linarith⟩
        · rintro (h | ⟨l', hl', h⟩)
          · exact absurd h (by simp)
          · cases hl'; linarith
  · cases last with
    | none => simp [needs_numbers_refresh]
    | some l =>
        simp only [needs_numbers_refresh, decide_eq_true_eq, Option.some.injEq]
        constructor
        · intro h; exact Or.inr ⟨l, rfl, by linarith⟩
        · rintro (h | ⟨l', hl', h⟩)
          · exact absurd h (by simp)
          · cases hl'; linarith
  · simp only [needs_tmdb_refresh, decide_eq_false_iff_not, not_lt]
    linarith
  · simp only [needs_omdb_refresh, decide_eq_false_iff_not, not_lt]
    linarith
  · simp only [needs_numbers_refresh, decide_eq_false_iff_not, not_lt]
    linarith

end RefreshStrategy

namespace DuckDB

/-- C2: `upsert_dataframe` implements the spec's delete-then-insert — for
every table state, batch and key-column list the result equals deleting
every existing row whose key matches some incoming row's key, then
inserting all incoming rows — and the semantics is replace, not merge:
upserting `{a:1}` over a prior `{a:1, b:2}` keyed on column `a` leaves the
row for that key without column `b`. -/
theorem C2_upsert_replace :
    (∀ (table rows : List Row) (keys : List String),
        upsert_dataframe table rows keys = upsertSpecModel table rows keys)
    ∧ upsert_dataframe [[("a", 1), ("b", 2)]] [[("a", 1)]] ["a"]
        = [[("a", 1)]]
    ∧ getCol [("a", 1)] "b" = none := by
  refine ⟨?_, by rfl, by rfl⟩
  intro table rows keys
  cases rows with
  | nil =>
      simp [upsert_dataframe, upsertSpecModel, deleteMatching, insertRows]
  | cons r rs => rfl

/-- C3 (code bug): the DELETE and the INSERT of `upsert_dataframe` are two
separately auto-committed statements with no surrounding transaction.  With
prior table `[{a:1, b:2}]` and incoming batch `[{a:1}]` keyed on `a`, the
state committed by the first statement alone — what a failure inside the
INSERT leaves durable — is the empty table: the matched row is deleted yet
no incoming row inserted, neither "all rows replaced" (the full
two-statement run) nor "table unchanged". -/
theorem C3_upsert_not_atomic :
    commitFirst (upsertStatements [[("a", 1)]] ["a"]) 1 [[("a", 1), ("b", 2)]]
        = []
    ∧ commitFirst (upsertStatements [[("a", 1)]] ["a"]) 2 [[("a", 1), ("b", 2)]]
        = upsert_dataframe [[("a", 1), ("b", 2)]] [[("a", 1)]] ["a"]
    ∧ ([] : List Row) ≠ [[("a", 1), ("b", 2)]]
    ∧ ([] : List Row)
        ≠ upsert_dataframe [[("a", 1), ("b", 2)]] [[("a", 1)]] ["a"] := by
  refine ⟨by rfl, by rfl, by simp, ?_⟩
  have h : upsert_dataframe [[("a", 1), ("b", 2)]] [[("a", 1)]] ["a"]
      = [[("a", 1)]] := by rfl
  rw [h]
  simp

end DuckDB

namespace RateLimiter

/-- C4 counterexample: an operation that always fails with HTTP 404 — a
non-throttling 4xx, hence non-transient per the claim — is nevertheless
retried: with `retry_count = 3`, `base_delay = 1`, `max_delay = 60` the
operation is invoked 3 times, not once, with backoff sleeps `[1, 2]` in
between, before the 404 finally propagates. -/
theorem C4_counterexample :
    (retry_with_backoff
        (fun _ => (Except.error (PyExc.httpStatusError 404) : Except PyExc Unit))
        3 1 60).calls = 3
    ∧ (retry_with_backoff
        (fun _ => (Except.error (PyExc.httpStatusError 404) : Except PyExc Unit))
        3 1 60).sleeps = [1, 2]
    ∧ (retry_with_backoff
        (fun _ => (Except.error (PyExc.httpStatusError 404) : Except PyExc Unit))
        3 1 60).result = Except.error (PyExc.httpStatusError 404)
    ∧ (3 : ℕ) ≠ 1 := by
  refine ⟨?_, ?_, ?_, by omega⟩ <;>
    norm_num [retry_with_backoff, retryGo, backoff, caught, is429]

/-- A 429 failure is an `HTTPStatusError`, hence caught by the retry
helper's exception tuple. -/
theorem is429_caught {e : PyExc} (h : is429 e = true) : caught e = true := by
  cases e <;> simp_all [is429, caught]

/-- The retry loop over a constantly failing operation whose exception lies
outside the caught tuple stops after a single invocation, with no sleep. -/
theorem retryGo_uncaught {α : Type} (e : PyExc) (he : caught e = false)
    (base maxDelay : ℚ) (attempt remaining : ℕ) (h : 1 ≤ remaining) :
    retryGo (fun _ => (Except.error e : Except PyExc α)) base maxDelay attempt
        remaining = ⟨Except.error e, 1, []⟩ := by
  cases remaining with
  | zero => omega
  | succ r => simp [retryGo, he]

/-- Shifting a mapped `List.range` by one: used to align the backoff sleeps
accumulated by the recursive retry loop with their closed form. -/
theorem range_map_shift {β : Type} (f : ℕ → β) (n a : ℕ) :
    (List.range (n + 1)).map (fun i => f (a + i))
      = f a :: (List.range n).map (fun i => f (a + 1 + i)) := by
  rw [List.range_succ_eq_map, List.map_cons, List.map_map]
  refine congrArg₂ List.cons (congrArg f (by omega)) ?_
  refine List.map_congr_left (fun i _ => ?_)
  simp only [Function.comp_apply]
  exact congrArg f (by omega)

/-- The retry loop over a constantly failing caught non-429 operation runs
all remaining attempts, sleeping between consecutive attempts but not after
the last one. -/
theorem retryGo_caught_non429 {α : Type} (e : PyExc) (he : caught e = true)
    (h429 : is429 e = false) (base maxDelay : ℚ) :
    ∀ remaining, 1 ≤ remaining → ∀ attempt,
      retryGo (fun _ => (Except.error e : Except PyExc α)) base maxDelay attempt
          remaining
        = ⟨Except.error e, remaining,
            (List.range (remaining - 1)).map
              (fun i => backoff base maxDelay (attempt + i))⟩ := by
  intro remaining
  induction remaining with
  | zero => omega
  | succ r ih =>
      intro _ attempt
      cases r with
      | zero => simp [retryGo, he, h429]
      | succ r' =>
          have hrest := ih (by omega) (attempt + 1)
          rw [retryGo]
          simp only [he, h429, Bool.true_eq_false, Bool.false_eq_true,
            if_false, Nat.succ_ne_zero, ite_false, hrest, Nat.add_sub_cancel]
          rw [range_map_shift (backoff base maxDelay) r' attempt]

/-- The retry loop over a constantly failing 429 operation runs all
remaining attempts and sleeps after every attempt, the last included. -/
theorem retryGo_429 {α : Type} (e : PyExc) (h429 : is429 e = true)
    (base maxDelay : ℚ) :
    ∀ remaining, 1 ≤ remaining → ∀ attempt,
      retryGo (fun _ => (Except.error e : Except PyExc α)) base maxDelay attempt
          remaining
        = ⟨Except.error e, remaining,
            (List.range remaining).map
              (fun i => backoff base maxDelay (attempt + i))⟩ := by
  have he := is429_caught h429
  intro remaining
  induction remaining with
  | zero => omega
  | succ r ih =>
      intro _ attempt
      cases r with
      | zero => simp [retryGo, he, h429, List.range_succ]
      | succ r' =>
          have hrest := ih (by omega) (attempt + 1)
          rw [retryGo]
          simp only [he, h429, Bool.true_eq_false, Bool.false_eq_true,
            if_false, Nat.succ_ne_zero, ite_false, ite_true, hrest,
            Nat.add_sub_cancel]
          rw [range_map_shift (backoff base maxDelay) (r' + 1) attempt]

/-- C4 amended: only failures outside the caught exception classes
(`httpx.HTTPStatusError`, `httpx.RequestError`) — e.g. a malformed
response — fail fast: one invocation and immediate propagation.  Every
caught failure, including HTTP status errors other than 429 such as a 404,
is retried like a transient one: up to `retry_count` total invocations with
sleep `min(base_delay * 2^attempt, max_delay)` between consecutive attempts,
the last failure propagating on exhaustion (a final-attempt 429 sleeps once
more before propagating). -/
theorem C4_retry_classification {α : Type} (e : PyExc) (base maxDelay : ℚ)
    (retryCount : ℕ) (hrc : 1 ≤ retryCount) :
    (caught e = false →
      retry_with_backoff (fun _ => (Except.error e : Except PyExc α))
          retryCount base maxDelay
        = ⟨Except.error e, 1, []⟩)
    ∧ (caught e = true → is429 e = false →
      retry_with_backoff (fun _ => (Except.error e : Except PyExc α))
          retryCount base maxDelay
        = ⟨Except.error e, retryCount,
            (List.range (retryCount - 1)).map (backoff base maxDelay)⟩)
    ∧ (is429 e = true →
      retry_with_backoff (fun _ => (Except.error e : Except PyExc α))
          retryCount base maxDelay
        = ⟨Except.error e, retryCount,
            (List.range retryCount).map (backoff base maxDelay)⟩) := by
  refine ⟨fun he => retryGo_uncaught e he base maxDelay 0 retryCount hrc,
    fun he h429 => ?_, fun h429 => ?_⟩
  · rw [retry_with_backoff, retryGo_caught_non429 e he h429 base maxDelay
      retryCount hrc 0]
    simp
  · rw [retry_with_backoff, retryGo_429 e h429 base maxDelay retryCount hrc 0]
    simp

/-- Witness for C4 amended, at `e = ValidationError`-style uncaught failure,
`retry_count = 3`, `base = 1`, `max = 60`: one invocation, immediate
propagation. -/
theorem C4_retry_classification_witness :
    retry_with_backoff
        (fun _ => (Except.error PyExc.otherError : Except PyExc Unit)) 3 1 60
      = ⟨Except.error PyExc.otherError, 1, []⟩ :=
  (C4_retry_classification PyExc.otherError 1 60 3 (by omega)).1 rfl

end RateLimiter

namespace OMDB

/-- C7: `get_movie_by_imdb_id` never raises to its caller: any exception on
the fetch path (network failure, non-2xx raised by `raise_for_status`, retry
exhaustion, validation failure inside normalization) yields `None`; a
provider-reported "not found" (`Response == "False"`) yields `None`; and a
record comes back only from a successful, valid, non-`"False"` response, in
which case it is that response's normalized record. -/
theorem C7_fetch_degrades_to_none (now : ℚ) (id : String)
    (outcome : Except PyExc RawData) :
    (∀ e, outcome = Except.error e →
        get_movie_by_imdb_id now id outcome = none)
    ∧ (outcome = Except.ok RawData.invalid →
        get_movie_by_imdb_id now id outcome = none)
    ∧ (∀ r, outcome = Except.ok (RawData.valid r) → r.Response = "False" →
        get_movie_by_imdb_id now id outcome = none)
    ∧ (∀ m, get_movie_by_imdb_id now id outcome = some m →
        id ≠ "" ∧ ∃ r, outcome = Except.ok (RawData.valid r)
          ∧ r.Response ≠ "False"
          ∧ normalize_movie_response now (RawData.valid r)
              = Except.ok (some m)) := by
  refine ⟨?_, ?_, ?_, ?_⟩
  · rintro e rfl
    unfold get_movie_by_imdb_id
    split_ifs <;> rfl
  · rintro rfl
    unfold get_movie_by_imdb_id normalize_movie_response
    split_ifs <;> rfl
  · rintro r rfl hresp
    unfold get_movie_by_imdb_id normalize_movie_response
    split_ifs with h
    · rfl
    · simp [hresp]
  · intro m h
    unfold get_movie_by_imdb_id at h
    by_cases hid : id = ""
    · rw [if_pos hid] at h
      exact absurd h (by simp)
    · rw [if_neg hid] at h
      refine ⟨hid, ?_⟩
      cases outcome with
      | error e => exact absurd h (by simp)
      | ok d =>
          cases d with
          | invalid => exact absurd h (by simp [normalize_movie_response])
          | valid r =>
              by_cases hresp : r.Response = "False"
              · simp [normalize_movie_response, hresp] at h
              · refine ⟨r, rfl, hresp, ?_⟩
                simp only [normalize_movie_response, if_neg hresp,
                  Option.some.injEq] at h ⊢
                rw [h]

/-- Witness for C7 at a concrete failing request (a transient network
error): the adapter returns `None`. -/
theorem C7_fetch_degrades_to_none_witness :
    get_movie_by_imdb_id 0 "tt0111161" (Except.error PyExc.requestError)
      = none :=
  (C7_fetch_degrades_to_none 0 "tt0111161"
      (Except.error PyExc.requestError)).1 PyExc.requestError rfl

end OMDB

namespace Orchestrator

/-- C8 counterexample: in a cycle where movie 1 received a TMDB update and
movie 2 an OMDB update, movie 3 — fetched from neither source this cycle,
with per-source timestamps left over from earlier cycles and
`last_full_refresh` null — also gets `last_full_refresh` stamped to now:
the code's UPDATE is gated only on the cycle counters and a table-wide
non-null test, not on which entities were updated this cycle.  This refutes
"exactly for those entities whose source data were both updated in that
same cycle". -/
theorem C8_counterexample :
    refreshCycleEnd 10 [1] [2]
        [⟨1, none, none, none⟩, ⟨2, none, none, none⟩,
          ⟨3, some 1, some 2, none⟩]
      = [⟨1, some 10, none, none⟩, ⟨2, none, some 10, none⟩,
          ⟨3, some 1, some 2, some 10⟩]
    ∧ (3 : ℕ) ∉ ([1] : List ℕ) ∧ (3 : ℕ) ∉ ([2] : List ℕ) := by
  refine ⟨by rfl, by decide, by decide⟩

/-- C8 amended: when at least one entity received a TMDB update and at
least one entity received an OMDB update in the cycle, `last_full_refresh`
is set to now for every entity whose two per-source timestamps are both
non-null after this cycle's stamps — whether or not set this cycle — and
whose `last_full_refresh` was null; otherwise no `last_full_refresh`
changes.  All other fields follow the per-source stamps. -/
theorem C8_full_refresh_stamp (now : ℚ) (tmdbIds omdbIds : List ℕ)
    (t : List MovieRow) :
    refreshCycleEnd now tmdbIds omdbIds t
      = t.map (cycleRowOutcome now tmdbIds omdbIds) := by
  unfold refreshCycleEnd applyFullRefreshUpdate stampTmdb stampOmdb
  rcases eq_or_ne tmdbIds [] with h1 | h1
  · subst h1
    rw [if_neg (by simp)]
    rw [List.map_map]
    refine List.map_congr_left (fun r _ => ?_)
    simp only [cycleRowOutcome, Function.comp, ne_eq, not_true_eq_false,
      false_and, if_false, ite_false]
    split_ifs <;> rfl
  · rcases eq_or_ne omdbIds [] with h2 | h2
    · subst h2
      rw [if_neg (by simp)]
      rw [List.map_map]
      refine List.map_congr_left (fun r _ => ?_)
      simp only [cycleRowOutcome, Function.comp, ne_eq, not_true_eq_false,
        false_and, and_false, if_false, ite_false]
      split_ifs <;> rfl
    · rw [if_pos ⟨List.length_pos.mpr h1, List.length_pos.mpr h2⟩]
      rw [List.map_map, List.map_map]
      refine List.map_congr_left (fun r _ => ?_)
      simp only [Function.comp, cycleRowOutcome, h1, h2, ne_eq,
        not_false_eq_true, true_and]
      split_ifs <;> simp_all

end Orchestrator

namespace RateLimiter

/-- One semaphore transition preserves the sum of free slots and current
holders. -/
theorem semStep_sum (maxC : ℕ) (s s1 : SemState) (e : SemEvent)
    (hsum : s.counter + s.holders = maxC)
    (hstep : semStep s e = some s1) :
    s1.counter + s1.holders = maxC := by
  cases e with
  | acq =>
      by_cases h : s.counter = 0
      · simp [semStep, h] at hstep
      · simp only [semStep, if_neg h, Option.some.injEq] at hstep
        subst hstep
        dsimp only
        omega
  | rel =>
      by_cases h : s.holders = 0
      · simp [semStep, h] at hstep
      · simp only [semStep, if_neg h, Option.some.injEq] at hstep
        subst hstep
        dsimp only
        omega

/-- Sum invariant of the semaphore: free slots plus current holders is
constant along every executable trace. -/
theorem runSem_invariant (maxC : ℕ) :
    ∀ (trace : List SemEvent) (s : SemState) (states : List SemState),
      s.counter + s.holders = maxC → runSem s trace = some states →
      ∀ s' ∈ states, s'.counter + s'.holders = maxC := by
  intro trace
  induction trace with
  | nil =>
      intro s states _ hrun s' hs'
      simp only [runSem, Option.some.injEq] at hrun
      subst hrun
      simp at hs'
  | cons e es ih =>
      intro s states hsum hrun s' hs'
      cases hstep : semStep s e with
      | none => simp [runSem, hstep] at hrun
      | some s1 =>
          simp only [runSem, hstep] at hrun
          cases hrec : runSem s1 es with
          | none => rw [hrec] at hrun; simp at hrun
          | some rest =>
              rw [hrec] at hrun
              simp only [Option.map_some', Option.some.injEq] at hrun
              subst hrun
              have hs1 := semStep_sum maxC s s1 e hsum hstep
              rcases List.mem_cons.mp hs' with rfl | hmem
              · exact hs1
              · exact ih s1 rest hs1 hrec s' hmem

/-- One pass through the rate gate never records a start earlier than the
previous recorded start plus the minimum delay. -/
theorem admitTime_ge (delta last now : ℚ) :
    last + delta ≤ admitTime delta last now := by
  unfold admitTime
  split_ifs with h
  · linarith
  · linarith [not_lt.mp h]

/-- Every admission recorded after seeding the serialised passes with stamp
`last` is at least `last + delta`. -/
theorem admitTimes_ge (delta : ℚ) (hd : 0 ≤ delta) :
    ∀ (nows : List ℚ) (last b : ℚ), b ∈ admitTimes delta last nows →
      last + delta ≤ b := by
  intro nows
  induction nows with
  | nil => intro last b hb; simp [admitTimes] at hb
  | cons now rest ih =>
      intro last b hb
      unfold admitTimes at hb
      rcases List.mem_cons.mp hb with rfl | hmem
      · exact admitTime_ge delta last now
      · have h1 := admitTime_ge delta last now
        have h2 := ih (admitTime delta last now) b hmem
        linarith

/-- Any two recorded request-start instants are at least `delta` apart, the
later one later. -/
theorem admitTimes_pairwise (delta : ℚ) (hd : 0 ≤ delta) :
    ∀ (nows : List ℚ) (last : ℚ),
      List.Pairwise (fun a b => a + delta ≤ b)
        (admitTimes delta last nows) := by
  intro nows
  induction nows with
  | nil => intro last; simp [admitTimes]
  | cons now rest ih =>
      intro last
      unfold admitTimes
      refine List.Pairwise.cons ?_ (ih _)
      intro b hb
      exact admitTimes_ge delta hd rest (admitTime delta last now) b hb

/-- C9: one executor instance never has more than `max_concurrent`
simultaneous holders — along every executable semaphore trace from the
initial state (all slots free, no holders), every reached state keeps the
holder count at most `max_concurrent` — and any two recorded request starts
of the instance are at least `1 / requests_per_second` seconds apart, the
gate being the instance-global `_last_request_time` updated under the
instance-global lock (not a per-caller clock). -/
theorem C9_rate_limiter_bounds (maxC : ℕ) (trace : List SemEvent)
    (states : List SemState)
    (hrun : runSem ⟨maxC, 0⟩ trace = some states)
    (rps : ℚ) (hrps : 0 < rps) (last0 : ℚ) (nows : List ℚ) :
    (∀ s ∈ states, s.holders ≤ maxC)
    ∧ List.Pairwise (fun a b => a + minDelay rps ≤ b)
        (admitTimes (minDelay rps) last0 nows) := by
  constructor
  · intro s hs
    have := runSem_invariant maxC trace ⟨maxC, 0⟩ states (by simp) hrun s hs
    omega
  · have hd : 0 ≤ minDelay rps := by
      unfold minDelay
      positivity
    exact admitTimes_pairwise (minDelay rps) hd nows last0

/-- Witness for C9 with two slots: the trace acquire-acquire-release-acquire
is executable, every reached state has at most 2 holders, and with
`requests_per_second = 2` the starts recorded for clock reads `[0, 10]` are
at least half a second apart. -/
theorem C9_rate_limiter_bounds_witness :
    (∀ s ∈ ([⟨1, 1⟩, ⟨0, 2⟩, ⟨1, 1⟩, ⟨0, 2⟩] : List SemState),
        s.holders ≤ 2)
    ∧ List.Pairwise (fun a b => a + minDelay 2 ≤ b)
        (admitTimes (minDelay 2) 0 [0, 10]) :=
  C9_rate_limiter_bounds 2
    [SemEvent.acq, SemEvent.acq, SemEvent.rel, SemEvent.acq]
    [⟨1, 1⟩, ⟨0, 2⟩, ⟨1, 1⟩, ⟨0, 2⟩] rfl 2 (by norm_num) 0 [0, 10]

end RateLimiter

end AYNE
